import Mathlib

/-!
Shallow embedding of the renfield-mcp-dlna control plane:
the discovery engine (`discovery.py`), the queue playback state machine
(`queue_manager.py`) and the caller-facing tool layer (`server.py`).

Stateful Python code is modelled by explicit state passing; network calls
issued to the device are recorded in a command trace; asynchronous tasks
scheduled by the event handler (`asyncio.create_task`) are executed to
completion as part of the handler's transition, which matches the
sequential (single event at a time) view the claims take.  The success or
failure of a fallible preload SOAP call is an explicit Boolean parameter.
-/

namespace RenfieldDlna

/-- Track dataclass from queue_manager.py (lines 75-84): url plus four
optional display strings.  These are exactly the dataclass fields; there
is no media_type field. -/
structure Track where
  url : String
  title : String := ""
  artist : String := ""
  album : String := ""
  art_url : String := ""
deriving DecidableEq

/-- DlnaRenderer dataclass from discovery.py (lines 30-40). -/
structure DlnaRenderer where
  name : String
  udn : String
  location : String
  supports_next : Bool
  av_transport_control_url : String
  rendering_control_url : String := ""
  base_url : String := ""
deriving DecidableEq

/-- Commands a QueueSession issues to the device through the AV-control
port (DmrDevice calls in queue_manager.py). -/
inductive Cmd where
  | subscribe
  | setTransportUri (url : String)
  | setNextTransportUri (url : String)
  | play
  | stopPlayback
  | unsubscribe
deriving DecidableEq

/-- Default used with List.getD where the Python code indexes a list it
has already bounds-checked. -/
def defaultTrack : Track := { url := "" }

/-- QueueSession state (queue_manager.py lines 93-98).  `dmr` records
whether `self._dmr` holds a live device handle (it is set by `start()`
and, as in the source, never reset). -/
structure QueueSession where
  renderer : DlnaRenderer
  tracks : List Track
  current_index : Nat
  dmr : Bool
  preloaded_index : Option Nat
deriving DecidableEq

/-- QueueSession.__init__ (queue_manager.py lines 93-98). -/
def QueueSession.init (renderer : DlnaRenderer) (tracks : List Track) : QueueSession :=
  { renderer := renderer, tracks := tracks, current_index := 0,
    dmr := false, preloaded_index := none }

/-- QueueSession._preload_next (queue_manager.py lines 191-213).  `callOk`
is the outcome of the SetNextAVTransportURI SOAP call: on success the
preloaded index is recorded, on failure it is cleared. -/
def QueueSession.preloadNext (s : QueueSession) (callOk : Bool) :
    QueueSession × List Cmd :=
  let nextIdx := s.current_index + 1
  if s.tracks.length ≤ nextIdx ∨ s.renderer.supports_next = false then (s, [])
  else if s.dmr = false then (s, [])
  else
    let track := s.tracks.getD nextIdx defaultTrack
    if callOk then
      ({ s with preloaded_index := some nextIdx },
       [Cmd.setNextTransportUri track.url])
    else
      ({ s with preloaded_index := none },
       [Cmd.setNextTransportUri track.url])

/-- QueueSession.start (queue_manager.py lines 100-124): subscribe, set
transport URI to track 0, play, then preload track 1 when the queue has
more than one track and the renderer supports SetNext. -/
def QueueSession.start (s : QueueSession) (preloadOk : Bool) :
    QueueSession × List Cmd :=
  let s1 : QueueSession := { s with dmr := true }
  let t0 := s1.tracks.getD 0 defaultTrack
  let baseCmds := [Cmd.subscribe, Cmd.setTransportUri t0.url, Cmd.play]
  if 1 < s1.tracks.length ∧ s1.renderer.supports_next = true then
    let r := s1.preloadNext preloadOk
    (r.1, baseCmds ++ r.2)
  else
    (s1, baseCmds)

/-- QueueSession._auto_advance (queue_manager.py lines 170-189). -/
def QueueSession.autoAdvance (s : QueueSession) : QueueSession × List Cmd :=
  if s.tracks.length ≤ s.current_index + 1 then (s, [])
  else
    let s1 : QueueSession :=
      { s with current_index := s.current_index + 1, preloaded_index := none }
    let track := s1.tracks.getD s1.current_index defaultTrack
    (s1, [Cmd.setTransportUri track.url, Cmd.play])

/-- Outcome of one delivered LAST_CHANGE event: the resulting session
state, the device commands issued (by the handler and the tasks it
schedules), and whether the queue-finished cleanup was scheduled. -/
structure EventOutcome where
  session : QueueSession
  cmds : List Cmd
  cleanupScheduled : Bool
deriving DecidableEq

/-- Branches 2 and 3 of QueueSession._on_event (queue_manager.py lines
152-168): STOPPED without SetNext support auto-advances; STOPPED at the
last index schedules cleanup. -/
def QueueSession.onEventStopped (s : QueueSession) (transportState : Option String) :
    EventOutcome :=
  if transportState = some "STOPPED" ∧ s.renderer.supports_next = false ∧
      s.current_index + 1 < s.tracks.length then
    let r := s.autoAdvance
    { session := r.1, cmds := r.2, cleanupScheduled := false }
  else if transportState = some "STOPPED" ∧ s.tracks.length ≤ s.current_index + 1 then
    { session := s, cmds := [], cleanupScheduled := true }
  else
    { session := s, cmds := [], cleanupScheduled := false }

/-- QueueSession._on_event (queue_manager.py lines 126-168).  Branch 1:
when the reported CurrentTrackURI is truthy and equals the preloaded
track's URL, the renderer advanced gaplessly: adopt the preloaded index,
clear the preload and schedule a fresh preload.  Otherwise fall through to
the STOPPED branches. -/
def QueueSession.onEvent (s : QueueSession) (transportState currentUri : Option String)
    (preloadOk : Bool) : EventOutcome :=
  match currentUri, s.preloaded_index with
  | some uri, some pi =>
    if uri ≠ "" ∧ uri = (s.tracks.getD pi defaultTrack).url then
      let s1 : QueueSession :=
        { s with current_index := pi, preloaded_index := none }
      let r := s1.preloadNext preloadOk
      { session := r.1, cmds := r.2, cleanupScheduled := false }
    else s.onEventStopped transportState
  | _, _ => s.onEventStopped transportState

/-- QueueSession.next (queue_manager.py lines 215-233). -/
def QueueSession.next (s : QueueSession) (preloadOk : Bool) :
    Option Track × QueueSession × List Cmd :=
  if s.tracks.length ≤ s.current_index + 1 then (none, s, [])
  else
    let s1 : QueueSession :=
      { s with current_index := s.current_index + 1, preloaded_index := none }
    let track := s1.tracks.getD s1.current_index defaultTrack
    let r := s1.preloadNext preloadOk
    (some track, r.1, [Cmd.setTransportUri track.url, Cmd.play] ++ r.2)

/-- QueueSession.previous (queue_manager.py lines 235-253). -/
def QueueSession.previous (s : QueueSession) (preloadOk : Bool) :
    Option Track × QueueSession × List Cmd :=
  if s.current_index = 0 then (none, s, [])
  else
    let s1 : QueueSession :=
      { s with current_index := s.current_index - 1, preloaded_index := none }
    let track := s1.tracks.getD s1.current_index defaultTrack
    let r := s1.preloadNext preloadOk
    (some track, r.1, [Cmd.setTransportUri track.url, Cmd.play] ++ r.2)

/-- QueueSession.stop, device-command part (queue_manager.py lines
255-266): when `self._dmr` is set, a best-effort stop and unsubscribe are
issued (their failures are swallowed).  As in the source, `_dmr` is not
reset, so the session state is unchanged. -/
def QueueSession.stop (s : QueueSession) : QueueSession × List Cmd :=
  if s.dmr then (s, [Cmd.stopPlayback, Cmd.unsubscribe]) else (s, [])

/-- Session registry `_sessions` (queue_manager.py line 26): a mapping
from renderer UDN to its QueueSession, modelled as an association list in
which a key occurs at most once (as in a Python dict). -/
abbrev Registry := List (String × QueueSession)

/-- Dictionary lookup `_sessions.get(udn)`. -/
def lookupKey (reg : Registry) (k : String) : Option QueueSession :=
  (reg.find? (fun p => p.1 == k)).map (fun p => p.2)

/-- Dictionary deletion `del _sessions[udn]` (no-op when absent). -/
def eraseKey (reg : Registry) (k : String) : Registry :=
  reg.filter (fun p => !(p.1 == k))

/-- Dictionary assignment `_sessions[udn] = session`. -/
def insertKey (reg : Registry) (k : String) (v : QueueSession) : Registry :=
  (k, v) :: eraseKey reg k

/-- Number of registry entries under a given key. -/
def countKey (reg : Registry) (k : String) : Nat :=
  (reg.filter (fun p => p.1 == k)).length

/-- QueueSession._cleanup (queue_manager.py lines 275-281): remove the
session from the registry by its renderer's UDN.  The shutdown of the
shared notify infrastructure when the registry empties carries no state
the claims observe and is omitted. -/
def QueueSession.cleanup (s : QueueSession) (reg : Registry) : Registry :=
  eraseKey reg s.renderer.udn

/-- QueueSession.stop including its trailing `_cleanup` call
(queue_manager.py lines 255-267). -/
def QueueSession.stopAndCleanup (s : QueueSession) (reg : Registry) :
    QueueSession × Registry × List Cmd :=
  let r := s.stop
  (r.1, s.cleanup reg, r.2)

/-- play_tracks (queue_manager.py lines 297-307): stop any existing
session for this renderer's UDN, then create, register and start the new
session.  The registered entry reflects the started session's state,
mirroring the in-place mutation of the registered Python object. -/
def play_tracks (reg : Registry) (renderer : DlnaRenderer) (tracks : List Track)
    (preloadOk : Bool) : Registry × QueueSession × List Cmd :=
  match lookupKey reg renderer.udn with
  | some existing =>
    let stopped := existing.stopAndCleanup reg
    let s0 := QueueSession.init renderer tracks
    let reg2 := insertKey stopped.2.1 renderer.udn s0
    let started := s0.start preloadOk
    (insertKey reg2 renderer.udn started.1, started.1, stopped.2.2 ++ started.2)
  | none =>
    let s0 := QueueSession.init renderer tracks
    let reg2 := insertKey reg renderer.udn s0
    let started := s0.start preloadOk
    (insertKey reg2 renderer.udn started.1, started.1, started.2)

/-- Discovery cache state `_renderer_cache` and `_cache_time`
(discovery.py lines 43-44).  Time is in whole seconds. -/
structure DiscoveryState where
  cache : List DlnaRenderer
  cacheTime : Nat
deriving DecidableEq

/-- CACHE_TTL (discovery.py line 27). -/
def CACHE_TTL : Nat := 300

/-- discover_renderers (discovery.py lines 219-250).  The network is an
oracle: `network` is the renderer list a full SSDP search plus
description fetch would produce at this moment.  The third component
counts multicast searches performed by the call.  The cache is served
only when force is false, the cached list is non-empty (Python truthiness
of `_renderer_cache`) and the cache is younger than the TTL. -/
def discover_renderers (st : DiscoveryState) (force : Bool) (now : Nat)
    (network : List DlnaRenderer) : DiscoveryState × List DlnaRenderer × Nat :=
  if force = false ∧ st.cache ≠ [] ∧ now - st.cacheTime < CACHE_TTL then
    (st, st.cache, 0)
  else
    ({ cache := network, cacheTime := now }, network, 1)

/-- Containment of one character list in another as a contiguous run,
mirroring Python's `in` operator on strings. -/
def charsLead : List Char → List Char → Bool
  | [], _ => true
  | _ :: _, [] => false
  | a :: as, b :: bs => a = b && charsLead as bs

/-- Containment helper over the tails of the haystack. -/
def charsSub (needle : List Char) : List Char → Bool
  | [] => charsLead needle []
  | hay@(_ :: t) => charsLead needle hay || charsSub needle t

/-- Python `needle in hay` for strings. -/
def strContains (hay needle : String) : Bool :=
  charsSub needle.data hay.data

/-- Python str.lower, character by character. -/
def pyLower (s : String) : String :=
  ⟨s.data.map Char.toLower⟩

/-- Exact case-insensitive name match (discovery.py lines 259-261). -/
def exactMatch (name : String) (r : DlnaRenderer) : Bool :=
  pyLower r.name == pyLower name

/-- Case-insensitive substring match (discovery.py lines 263-266). -/
def subMatch (name : String) (r : DlnaRenderer) : Bool :=
  strContains (pyLower r.name) (pyLower name)

/-- Matching part of find_renderer (discovery.py lines 253-268): first
renderer whose lowered name equals the lowered query, else first whose
lowered name contains it, else none. -/
def find_renderer_in (renderers : List DlnaRenderer) (name : String) :
    Option DlnaRenderer :=
  match renderers.find? (exactMatch name) with
  | some r => some r
  | none => renderers.find? (subMatch name)

/-- find_renderer (discovery.py lines 253-268): consult
`discover_renderers` with its default `force=False`, then match. -/
def find_renderer (st : DiscoveryState) (now : Nat) (network : List DlnaRenderer)
    (name : String) : DiscoveryState × Option DlnaRenderer × Nat :=
  let d := discover_renderers st false now network
  (d.1, find_renderer_in d.2.1 name, d.2.2)

/-- One element of the parsed tracks JSON array (server.py lines 76-88):
whether it is a JSON object, and the values `t.get(...)` returns for the
keys the server reads. -/
structure JItem where
  isDict : Bool := true
  url : Option String := none
  title : Option String := none
  artist : Option String := none
  album : Option String := none
  art_url : Option String := none
  media_type : Option String := none
deriving DecidableEq

/-- Truthiness of `t.get("url")` combined with the isinstance check
(server.py line 77): the item passes when it is an object and its url is
present and non-empty. -/
def jitemHasUrl (it : JItem) : Bool :=
  it.isDict && (match it.url with
    | some u => !(u == "")
    | none => false)

/-- Field names of the Track dataclass (queue_manager.py lines 75-84). -/
def trackFields : List String := ["url", "title", "artist", "album", "art_url"]

/-- Keyword arguments the server passes when constructing a Track
(server.py lines 79-88). -/
def serverTrackKwargs : List String :=
  ["url", "title", "artist", "album", "art_url", "media_type"]

/-- A Python dataclass constructor raises TypeError exactly when it is
passed a keyword that is not one of its fields.  The server's Track
construction sits outside the try block (server.py lines 75-88), so such
a TypeError escapes the tool unhandled. -/
def trackCtorRaises : Bool :=
  !(serverTrackKwargs.all (fun k => trackFields.contains k))

/-- Track object the server would build from one item (server.py lines
79-88), were the constructor call to succeed. -/
def trackOfItem (it : JItem) : Track :=
  { url := it.url.getD "", title := it.title.getD "",
    artist := it.artist.getD "", album := it.album.getD "",
    art_url := it.art_url.getD "" }

/-- Outcome of the per-item validation and construction loop. -/
inductive TrackParse where
  | missingUrl (i : Nat)
  | typeError
  | ok (tracks : List Track)
deriving DecidableEq

/-- Validation and construction loop of server.play_tracks (server.py
lines 75-88): an item failing the url check stops the loop with its
index; a passing item is handed to the Track constructor, which raises
when `trackCtorRaises` (it does, because of the media_type keyword). -/
def parseItems : List JItem → Nat → TrackParse
  | [], _ => .ok []
  | it :: rest, i =>
    if jitemHasUrl it = false then .missingUrl i
    else if trackCtorRaises then .typeError
    else
      match parseItems rest (i + 1) with
      | .ok ts => .ok (trackOfItem it :: ts)
      | e => e

/-- Parsed shape of the `tracks` string argument: `json.loads` failed, it
parsed to something other than a list, or it parsed to a list of items. -/
inductive TracksInput where
  | invalidJson
  | notAList
  | list (items : List JItem)
deriving DecidableEq

/-- Result classes of the play_tracks tool (server.py lines 49-106).
`unhandledTypeError` is the TypeError escaping the Track construction. -/
inductive PlayResult where
  | errRendererNotFound
  | errInvalidJson
  | errEmptyTracks
  | errMissingUrl (i : Nat)
  | unhandledTypeError
  | success
deriving DecidableEq

/-- Observable outcome of one play_tracks tool invocation: the result,
the number of SSDP multicast searches performed, the device commands
issued, and the resulting registry and discovery cache. -/
structure ServerOutcome where
  result : PlayResult
  searches : Nat
  deviceCmds : List Cmd
  registry : Registry
  discovery : DiscoveryState
deriving DecidableEq

/-- server.play_tracks (server.py lines 49-106): resolve the renderer
first (which consults discovery and may multicast-search), then parse and
validate the tracks argument, then start the queue session. -/
def server_play_tracks (st : DiscoveryState) (now : Nat)
    (network : List DlnaRenderer) (rendererName : String)
    (tracksArg : TracksInput) (reg : Registry) (preloadOk : Bool) :
    ServerOutcome :=
  let d := find_renderer st now network rendererName
  let st1 := d.1
  let searches := d.2.2
  match d.2.1 with
  | none =>
    { result := .errRendererNotFound, searches := searches, deviceCmds := [],
      registry := reg, discovery := st1 }
  | some r =>
    match tracksArg with
    | .invalidJson =>
      { result := .errInvalidJson, searches := searches, deviceCmds := [],
        registry := reg, discovery := st1 }
    | .notAList =>
      { result := .errEmptyTracks, searches := searches, deviceCmds := [],
        registry := reg, discovery := st1 }
    | .list [] =>
      { result := .errEmptyTracks, searches := searches, deviceCmds := [],
        registry := reg, discovery := st1 }
    | .list (it :: rest) =>
      match parseItems (it :: rest) 0 with
      | .missingUrl i =>
        { result := .errMissingUrl i, searches := searches, deviceCmds := [],
          registry := reg, discovery := st1 }
      | .typeError =>
        { result := .unhandledTypeError, searches := searches, deviceCmds := [],
          registry := reg, discovery := st1 }
      | .ok ts =>
        let p := play_tracks reg r ts preloadOk
        { result := .success, searches := searches, deviceCmds := p.2.2,
          registry := p.1, discovery := st1 }

/-- Malformed tracks argument in the sense of the error-handling design:
invalid JSON, not an array, an empty array, or some item failing the url
check. -/
def malformedTracksB : TracksInput → Bool
  | .invalidJson => true
  | .notAList => true
  | .list items => items.isEmpty || items.any (fun it => !(jitemHasUrl it))

/-- Queue-state invariant of the spec's data model: the preloaded index,
when present, is the successor of the current index (and in range, which
is what lets the event handler index the track list). -/
def preloadInvB (s : QueueSession) : Bool :=
  match s.preloaded_index with
  | none => true
  | some pi => pi == s.current_index + 1 && decide (pi < s.tracks.length)

/-- Sample renderer with gapless support, shared by concrete scenarios. -/
def sampleTv : DlnaRenderer :=
  { name := "Samsung TV", udn := "uuid:tv", location := "http://host/desc.xml",
    supports_next := true, av_transport_control_url := "http://host/avt" }

/-- Sample renderer without gapless support whose name extends sampleTv's. -/
def sampleTvLr : DlnaRenderer :=
  { name := "Samsung TV Living Room", udn := "uuid:tv-lr",
    location := "http://host/desc2.xml", supports_next := false,
    av_transport_control_url := "http://host/avt2" }

/-- Sample tracks shared by concrete scenarios. -/
def trackA : Track := { url := "http://media/a.flac", title := "A" }

/-- Second sample track. -/
def trackB : Track := { url := "http://media/b.flac", title := "B" }

/-- Third sample track. -/
def trackC : Track := { url := "http://media/c.flac", title := "C" }

/-- Sample well-formed JSON track item. -/
def sampleGoodItem : JItem := { url := some "http://media/a.flac", title := some "A" }

/-- Sample JSON track item lacking the url field. -/
def sampleBadItem : JItem := { title := some "No URL" }

/-- find? returns the first element satisfying the predicate: splitting
the list at that element, all earlier elements failing, pins the result. -/
theorem find?_first {α : Type} (p : α → Bool) (l1 : List α) (r : α) (l2 : List α)
    (h1 : ∀ x ∈ l1, p x = false) (hr : p r = true) :
    (l1 ++ r :: l2).find? p = some r := by
  induction l1 with
  | nil => simp [List.find?_cons, hr]
  | cons a as ih =>
    have ha : p a = false := h1 a (List.mem_cons_self a as)
    simpa [List.find?_cons, ha] using ih (fun x hx => h1 x (List.mem_cons_of_mem a hx))

/-- Looking up the key just inserted yields the inserted session. -/
theorem lookupKey_insertKey (reg : Registry) (k : String) (v : QueueSession) :
    lookupKey (insertKey reg k v) k = some v := by
  simp [lookupKey, insertKey, List.find?_cons]

/-- After erasing a key it no longer occurs. -/
theorem countKey_eraseKey (reg : Registry) (k : String) :
    countKey (eraseKey reg k) k = 0 := by
  induction reg with
  | nil => rfl
  | cons p rest ih =>
    show countKey (List.filter (fun q => !(q.1 == k)) (p :: rest)) k = 0
    rw [List.filter_cons]
    by_cases h : p.1 == k
    · rw [if_neg (by simp [h])]
      exact ih
    · rw [if_pos (by simp [h])]
      show (List.filter (fun q => q.1 == k)
        (p :: List.filter (fun q => !(q.1 == k)) rest)).length = 0
      rw [List.filter_cons, if_neg (by simp [h])]
      exact ih

/-- Insertion leaves exactly one entry under the inserted key. -/
theorem countKey_insertKey (reg : Registry) (k : String) (v : QueueSession) :
    countKey (insertKey reg k v) k = 1 := by
  have h0 := countKey_eraseKey reg k
  simp only [countKey, eraseKey] at h0 ⊢
  simp [insertKey, List.filter_cons, eraseKey, h0]

/-- Erasing a key twice equals erasing it once. -/
theorem eraseKey_eraseKey (reg : Registry) (k : String) :
    eraseKey (eraseKey reg k) k = eraseKey reg k := by
  unfold eraseKey
  refine List.filter_eq_self.mpr ?_
  intro a ha
  exact (List.mem_filter.mp ha).2

/-- Characterisation of a successful preload in the in-range, supported,
live-handle case. -/
theorem preloadNext_spec (s : QueueSession)
    (h1 : s.current_index + 1 < s.tracks.length)
    (h2 : s.renderer.supports_next = true) (h3 : s.dmr = true) :
    s.preloadNext true =
      ({ s with preloaded_index := some (s.current_index + 1) },
       [Cmd.setNextTransportUri
          ((s.tracks.getD (s.current_index + 1) defaultTrack).url)]) := by
  have hA : ¬(s.tracks.length ≤ s.current_index + 1 ∨
      s.renderer.supports_next = false) := by
    rw [h2]; push_neg; exact ⟨by omega, by simp⟩
  have hB : ¬(s.dmr = false) := by rw [h3]; simp
  simp [QueueSession.preloadNext, hA, hB]

/-- Preload preserves the queue-state invariant for either call outcome. -/
theorem preloadInvB_preloadNext (s : QueueSession) (ok : Bool)
    (h : preloadInvB s = true) : preloadInvB (s.preloadNext ok).1 = true := by
  unfold QueueSession.preloadNext
  by_cases hA : s.tracks.length ≤ s.current_index + 1 ∨
      s.renderer.supports_next = false
  · simpa [hA] using h
  · by_cases hB : s.dmr = false
    · simpa [hA, hB] using h
    · rcases not_or.mp hA with ⟨hlen, _⟩
      cases ok with
      | false => simp [hA, hB, preloadInvB]
      | true => simp [hA, hB, preloadInvB]; omega

/-- Auto-advance preserves the queue-state invariant. -/
theorem preloadInvB_autoAdvance (s : QueueSession)
    (h : preloadInvB s = true) : preloadInvB s.autoAdvance.1 = true := by
  unfold QueueSession.autoAdvance
  by_cases hA : s.tracks.length ≤ s.current_index + 1
  · simpa [hA] using h
  · simp [hA, preloadInvB]

/-- The STOPPED branches of the event handler preserve the invariant. -/
theorem preloadInvB_onEventStopped (s : QueueSession) (ts : Option String)
    (h : preloadInvB s = true) :
    preloadInvB (s.onEventStopped ts).session = true := by
  unfold QueueSession.onEventStopped
  split
  · exact preloadInvB_autoAdvance s h
  · split
    · exact h
    · exact h

/-- The whole event handler preserves the invariant. -/
theorem preloadInvB_onEvent (s : QueueSession) (ts uri : Option String) (ok : Bool)
    (h : preloadInvB s = true) :
    preloadInvB (s.onEvent ts uri ok).session = true := by
  unfold QueueSession.onEvent
  split
  · split
    · exact preloadInvB_preloadNext _ ok rfl
    · exact preloadInvB_onEventStopped s ts h
  · exact preloadInvB_onEventStopped s ts h

/-- Skip-next preserves the invariant. -/
theorem preloadInvB_next (s : QueueSession) (ok : Bool)
    (h : preloadInvB s = true) :
    preloadInvB (s.next ok).2.1 = true := by
  unfold QueueSession.next
  split
  · exact h
  · exact preloadInvB_preloadNext _ ok rfl

/-- Skip-previous preserves the invariant. -/
theorem preloadInvB_previous (s : QueueSession) (ok : Bool)
    (h : preloadInvB s = true) :
    preloadInvB (s.previous ok).2.1 = true := by
  unfold QueueSession.previous
  split
  · exact h
  · exact preloadInvB_preloadNext _ ok rfl

/-- Start preserves the invariant. -/
theorem preloadInvB_start (s : QueueSession) (ok : Bool)
    (h : preloadInvB s = true) :
    preloadInvB (s.start ok).1 = true := by
  unfold QueueSession.start
  dsimp only
  split
  · exact preloadInvB_preloadNext _ ok h
  · exact h

/-- Stop preserves the invariant (it does not change the session). -/
theorem preloadInvB_stop (s : QueueSession) (h : preloadInvB s = true) :
    preloadInvB s.stop.1 = true := by
  unfold QueueSession.stop
  split
  · exact h
  · exact h

/-- C9: every queue-session operation preserves the invariant that the
preloaded index, when present, equals the current index plus one (and is
in range): skip or back and a detected gapless transition clear the old
preload, and any preload the operation establishes targets the new
current index plus one. -/
theorem C9_preload_invariant (s : QueueSession) (ts uri : Option String) (ok : Bool)
    (h : preloadInvB s = true) :
    preloadInvB (s.start ok).1 = true ∧
    preloadInvB (s.onEvent ts uri ok).session = true ∧
    preloadInvB s.autoAdvance.1 = true ∧
    preloadInvB (s.preloadNext ok).1 = true ∧
    preloadInvB (s.next ok).2.1 = true ∧
    preloadInvB (s.previous ok).2.1 = true ∧
    preloadInvB s.stop.1 = true :=
  ⟨preloadInvB_start s ok h, preloadInvB_onEvent s ts uri ok h,
   preloadInvB_autoAdvance s h, preloadInvB_preloadNext s ok h,
   preloadInvB_next s ok h, preloadInvB_previous s ok h,
   preloadInvB_stop s h⟩

/-- Witness for C9 at a concrete mid-queue session with an outstanding
preload. -/
theorem C9_preload_invariant_witness :
    preloadInvB
      { renderer := sampleTv, tracks := [trackA, trackB, trackC],
        current_index := 0, dmr := true, preloaded_index := some 1 } = true ∧
    preloadInvB
      ({ renderer := sampleTv, tracks := [trackA, trackB, trackC],
         current_index := 0, dmr := true,
         preloaded_index := some 1 : QueueSession}.next true).2.1 = true :=
  ⟨by decide,
   (C9_preload_invariant
      { renderer := sampleTv, tracks := [trackA, trackB, trackC],
        current_index := 0, dmr := true, preloaded_index := some 1 }
      (some "PLAYING") none true (by decide)).2.2.2.2.1⟩

/-- C10: skip-next at the last index and skip-previous at index 0 return
none, issue no commands and leave the session unchanged. -/
theorem C10_skip_bounds (s : QueueSession) (ok : Bool) :
    (s.current_index + 1 = s.tracks.length → s.next ok = (none, s, [])) ∧
    (s.current_index = 0 → s.previous ok = (none, s, [])) := by
  constructor
  · intro hlast
    unfold QueueSession.next
    rw [if_pos (by omega)]
  · intro hzero
    unfold QueueSession.previous
    rw [if_pos hzero]

/-- Witness for C10 on a one-track session, where the current index is
both the last index and index 0. -/
theorem C10_skip_bounds_witness :
    QueueSession.next
        { renderer := sampleTv, tracks := [trackA], current_index := 0,
          dmr := true, preloaded_index := none } true =
      (none,
       { renderer := sampleTv, tracks := [trackA], current_index := 0,
         dmr := true, preloaded_index := none }, []) ∧
    QueueSession.previous
        { renderer := sampleTv, tracks := [trackA], current_index := 0,
          dmr := true, preloaded_index := none } true =
      (none,
       { renderer := sampleTv, tracks := [trackA], current_index := 0,
         dmr := true, preloaded_index := none }, []) :=
  ⟨(C10_skip_bounds _ true).1 rfl, (C10_skip_bounds _ true).2 rfl⟩

/-- Counterexample to C6 as stated: on a session whose device handle was
set by start and on which stop has already run once, a second stop still
finds the handle set (it is never cleared) and re-issues the stop and
unsubscribe device commands. -/
theorem C6_counterexample :
    (QueueSession.stop
        (QueueSession.stop
          { renderer := sampleTv, tracks := [trackA], current_index := 0,
            dmr := true, preloaded_index := none }).1).1.dmr = true ∧
    (QueueSession.stop
        (QueueSession.stop
          { renderer := sampleTv, tracks := [trackA], current_index := 0,
            dmr := true, preloaded_index := none }).1).2 ≠ [] := by
  decide

/-- C6 amended: stop never mutates the session (the device handle is not
cleared), so a second stop repeats the same best-effort commands and the
combined stop-plus-cleanup is idempotent on the session and registry
state, leaving the same final state as a single stop. -/
theorem C6_stop_idempotent (s : QueueSession) (reg : Registry) :
    QueueSession.stop (QueueSession.stop s).1 = QueueSession.stop s ∧
    QueueSession.stopAndCleanup (QueueSession.stopAndCleanup s reg).1
        (QueueSession.stopAndCleanup s reg).2.1 =
      QueueSession.stopAndCleanup s reg := by
  have hfst : (QueueSession.stop s).1 = s := by
    unfold QueueSession.stop
    split <;> rfl
  constructor
  · rw [hfst]
  · unfold QueueSession.stopAndCleanup QueueSession.cleanup
    rw [hfst]
    rw [eraseKey_eraseKey]

/-- C1: with gapless support and at least three tracks, start preloads
index 1; an event whose current-track URI equals track 1's URL advances
the current index to 1, clears the old preload, issues a fresh preload
for index 2 and no set-transport-URI command. -/
theorem C1_gapless_transition (r : DlnaRenderer) (tracks : List Track)
    (ts : Option String) (hnext : r.supports_next = true)
    (hlen : 3 ≤ tracks.length) (huri : (tracks.getD 1 defaultTrack).url ≠ "") :
    ((QueueSession.init r tracks).start true).1.preloaded_index = some 1 ∧
    (((QueueSession.init r tracks).start true).1.onEvent ts
        (some ((tracks.getD 1 defaultTrack).url)) true).session.current_index = 1 ∧
    (((QueueSession.init r tracks).start true).1.onEvent ts
        (some ((tracks.getD 1 defaultTrack).url)) true).session.preloaded_index
      = some 2 ∧
    (((QueueSession.init r tracks).start true).1.onEvent ts
        (some ((tracks.getD 1 defaultTrack).url)) true).cmds =
      [Cmd.setNextTransportUri ((tracks.getD 2 defaultTrack).url)] ∧
    ∀ u, Cmd.setTransportUri u ∉
      (((QueueSession.init r tracks).start true).1.onEvent ts
        (some ((tracks.getD 1 defaultTrack).url)) true).cmds := by
  have hstart : ((QueueSession.init r tracks).start true).1 =
      { renderer := r, tracks := tracks, current_index := 0, dmr := true,
        preloaded_index := some 1 } := by
    unfold QueueSession.init QueueSession.start
    dsimp only
    rw [if_pos ⟨by omega, hnext⟩]
    dsimp only
    rw [preloadNext_spec _ (by show 0 + 1 < tracks.length; omega) hnext rfl]
  have hev : QueueSession.onEvent
      { renderer := r, tracks := tracks, current_index := 0, dmr := true,
        preloaded_index := some 1 } ts
      (some ((tracks.getD 1 defaultTrack).url)) true =
      { session :=
          { renderer := r, tracks := tracks, current_index := 1,
            dmr := true, preloaded_index := some 2 },
        cmds := [Cmd.setNextTransportUri ((tracks.getD 2 defaultTrack).url)],
        cleanupScheduled := false } := by
    unfold QueueSession.onEvent
    dsimp only
    rw [if_pos ⟨huri, rfl⟩]
    rw [preloadNext_spec _ (by show 1 + 1 < tracks.length; omega) hnext rfl]
  rw [hstart, hev]
  refine ⟨rfl, rfl, rfl, rfl, ?_⟩
  intro u
  simp

/-- Witness for C1 on a concrete three-track queue: track 1 is preloaded
after start, and the event reporting track 1's URL moves the preload to
track 2 while issuing only a set-next command. -/
theorem C1_gapless_transition_witness :
    ((QueueSession.init sampleTv [trackA, trackB, trackC]).start
        true).1.preloaded_index = some 1 ∧
    (((QueueSession.init sampleTv [trackA, trackB, trackC]).start
        true).1.onEvent (some "PLAYING") (some trackB.url)
        true).session.current_index = 1 ∧
    (((QueueSession.init sampleTv [trackA, trackB, trackC]).start
        true).1.onEvent (some "PLAYING") (some trackB.url)
        true).session.preloaded_index = some 2 ∧
    (((QueueSession.init sampleTv [trackA, trackB, trackC]).start
        true).1.onEvent (some "PLAYING") (some trackB.url) true).cmds =
      [Cmd.setNextTransportUri trackC.url] := by
  have h := C1_gapless_transition sampleTv [trackA, trackB, trackC]
    (some "PLAYING") rfl (by decide) (by decide)
  exact ⟨h.1, h.2.1, h.2.2.1, h.2.2.2.1⟩

/-- C7: without gapless support, with no preload outstanding and the
current index strictly before the last track, a STOPPED event advances
the current index by one and issues set-transport-URI plus play for the
next track. -/
theorem C7_stopped_auto_advance (s : QueueSession) (uri : Option String)
    (ok : Bool) (hng : s.renderer.supports_next = false)
    (hp : s.preloaded_index = none)
    (hlt : s.current_index + 1 < s.tracks.length) :
    (s.onEvent (some "STOPPED") uri ok).session.current_index
      = s.current_index + 1 ∧
    (s.onEvent (some "STOPPED") uri ok).session.preloaded_index = none ∧
    (s.onEvent (some "STOPPED") uri ok).cmds =
      [Cmd.setTransportUri
        ((s.tracks.getD (s.current_index + 1) defaultTrack).url), Cmd.play] := by
  have hev : s.onEvent (some "STOPPED") uri ok
      = s.onEventStopped (some "STOPPED") := by
    unfold QueueSession.onEvent
    cases uri with
    | none => rfl
    | some u => rw [hp]
  have hstop : s.onEventStopped (some "STOPPED") =
      { session := s.autoAdvance.1, cmds := s.autoAdvance.2,
        cleanupScheduled := false } := by
    unfold QueueSession.onEventStopped
    rw [if_pos ⟨rfl, hng, hlt⟩]
  have hadv : s.autoAdvance =
      ({ s with current_index := s.current_index + 1, preloaded_index := none },
       [Cmd.setTransportUri
          ((s.tracks.getD (s.current_index + 1) defaultTrack).url), Cmd.play]) := by
    unfold QueueSession.autoAdvance
    rw [if_neg (by omega)]
  rw [hev, hstop, hadv]
  exact ⟨rfl, rfl, rfl⟩

/-- Witness for C7 on a concrete two-track queue on a renderer without
SetNext support: the STOPPED event at index 0 plays track 1 explicitly. -/
theorem C7_stopped_auto_advance_witness :
    (QueueSession.onEvent
        { renderer := sampleTvLr, tracks := [trackA, trackB],
          current_index := 0, dmr := true, preloaded_index := none }
        (some "STOPPED") none true).session.current_index = 1 ∧
    (QueueSession.onEvent
        { renderer := sampleTvLr, tracks := [trackA, trackB],
          current_index := 0, dmr := true, preloaded_index := none }
        (some "STOPPED") none true).cmds =
      [Cmd.setTransportUri trackB.url, Cmd.play] := by
  have h := C7_stopped_auto_advance
    { renderer := sampleTvLr, tracks := [trackA, trackB],
      current_index := 0, dmr := true, preloaded_index := none }
    none true rfl rfl (by decide)
  exact ⟨h.1, h.2.2⟩

/-- Counterexample to C2 as stated: from the empty cache, two non-forced
discover calls ten seconds apart over an empty network each perform a
multicast search, because the empty first result fails the cache's
truthiness test; so two searches happen inside one TTL window and the
second call does not serve the cache. -/
theorem C2_counterexample :
    (discover_renderers { cache := [], cacheTime := 0 } false 1000 []).2.2 = 1 ∧
    (discover_renderers
        (discover_renderers { cache := [], cacheTime := 0 } false 1000 []).1
        false 1010 []).2.2 = 1 ∧
    (1010 : Nat) -
        (discover_renderers { cache := [], cacheTime := 0 } false
          1000 []).1.cacheTime < CACHE_TTL := by
  decide

/-- C2 amended: when the first non-forced call returns a non-empty list,
a second non-forced call within the TTL of the cache timestamp performs
no multicast search and returns exactly the cached list, for at most one
search across the two calls. -/
theorem C2_cache_served (st : DiscoveryState) (now1 now2 : Nat)
    (net1 net2 : List DlnaRenderer)
    (h1 : (discover_renderers st false now1 net1).2.1 ≠ [])
    (h2 : now2 - (discover_renderers st false now1 net1).1.cacheTime
      < CACHE_TTL) :
    (discover_renderers (discover_renderers st false now1 net1).1
        false now2 net2).2.1 = (discover_renderers st false now1 net1).2.1 ∧
    (discover_renderers (discover_renderers st false now1 net1).1
        false now2 net2).2.2 = 0 ∧
    (discover_renderers st false now1 net1).2.2 +
      (discover_renderers (discover_renderers st false now1 net1).1
        false now2 net2).2.2 ≤ 1 := by
  by_cases hc : st.cache ≠ [] ∧ now1 - st.cacheTime < CACHE_TTL
  · have e1 : discover_renderers st false now1 net1 = (st, st.cache, 0) := by
      unfold discover_renderers
      rw [if_pos ⟨rfl, hc⟩]
    rw [e1] at h1 h2 ⊢
    dsimp only at h1 h2 ⊢
    have e2 : discover_renderers st false now2 net2 = (st, st.cache, 0) := by
      unfold discover_renderers
      rw [if_pos ⟨rfl, h1, h2⟩]
    rw [e2]
    exact ⟨rfl, rfl, (by decide : (0 : Nat) + 0 ≤ 1)⟩
  · have e1 : discover_renderers st false now1 net1 =
        ({ cache := net1, cacheTime := now1 }, net1, 1) := by
      unfold discover_renderers
      rw [if_neg (fun h => hc h.2)]
    rw [e1] at h1 h2 ⊢
    dsimp only at h1 h2 ⊢
    have e2 : discover_renderers { cache := net1, cacheTime := now1 }
        false now2 net2 = ({ cache := net1, cacheTime := now1 }, net1, 0) := by
      unfold discover_renderers
      rw [if_pos ⟨rfl, h1, h2⟩]
    rw [e2]
    exact ⟨rfl, rfl, (by decide : (1 : Nat) + 0 ≤ 1)⟩

/-- Witness for C2 amended: one renderer discovered at time 10, cache
served without a search at time 20. -/
theorem C2_cache_served_witness :
    (discover_renderers
        (discover_renderers { cache := [], cacheTime := 0 } false 10
          [sampleTv]).1 false 20 []).2.1 =
      (discover_renderers { cache := [], cacheTime := 0 } false 10
        [sampleTv]).2.1 ∧
    (discover_renderers
        (discover_renderers { cache := [], cacheTime := 0 } false 10
          [sampleTv]).1 false 20 []).2.2 = 0 := by
  have h := C2_cache_served { cache := [], cacheTime := 0 } 10 20 [sampleTv] []
    (by decide) (by decide)
  exact ⟨h.1, h.2.1⟩

/-- C8: resolution consults discovery with force false; the first exact
case-insensitive match wins over any substring match; with no exact match
anywhere, the first substring match in discovery order wins; with no
match at all the result is none. -/
theorem C8_resolve_matching (rs : List DlnaRenderer) (name : String) :
    (∀ l1 r l2, rs = l1 ++ r :: l2 → (∀ x ∈ l1, exactMatch name x = false) →
      exactMatch name r = true → find_renderer_in rs name = some r) ∧
    ((∀ x ∈ rs, exactMatch name x = false) →
      ∀ l1 r l2, rs = l1 ++ r :: l2 → (∀ x ∈ l1, subMatch name x = false) →
      subMatch name r = true → find_renderer_in rs name = some r) ∧
    ((∀ x ∈ rs, exactMatch name x = false ∧ subMatch name x = false) →
      find_renderer_in rs name = none) ∧
    (∀ st now network, find_renderer st now network name =
      ((discover_renderers st false now network).1,
       find_renderer_in (discover_renderers st false now network).2.1 name,
       (discover_renderers st false now network).2.2)) := by
  refine ⟨?_, ?_, ?_, fun st now network => rfl⟩
  · intro l1 r l2 hsplit hpre hr
    unfold find_renderer_in
    rw [hsplit, find?_first _ l1 r l2 hpre hr]
  · intro hnoex l1 r l2 hsplit hpre hr
    have he : rs.find? (exactMatch name) = none :=
      List.find?_eq_none.mpr (fun x hx => by simp [hnoex x hx])
    unfold find_renderer_in
    rw [he]
    show rs.find? (subMatch name) = some r
    rw [hsplit]
    exact find?_first _ l1 r l2 hpre hr
  · intro hnone
    have he : rs.find? (exactMatch name) = none :=
      List.find?_eq_none.mpr (fun x hx => by simp [(hnone x hx).1])
    have hs : rs.find? (subMatch name) = none :=
      List.find?_eq_none.mpr (fun x hx => by simp [(hnone x hx).2])
    unfold find_renderer_in
    rw [he]
    exact hs

/-- Witness for C8 on the spec's example: resolving "samsung tv" against
"Samsung TV" and "Samsung TV Living Room" returns the exact-name match,
case-insensitively, not the substring match. -/
theorem C8_resolve_matching_witness :
    find_renderer_in [sampleTv, sampleTvLr] "samsung tv" = some sampleTv :=
  (C8_resolve_matching [sampleTv, sampleTvLr] "samsung tv").1
    [] sampleTv [sampleTvLr] rfl (by intro x hx; cases hx) (by decide)

/-- C3: when a session is already registered for the renderer's UDN,
play_tracks stops it first (its stop commands precede all of the new
session's commands in the trace), removes it, and leaves exactly one
registered session for that UDN: the newly started one. -/
theorem C3_replaces_session (reg : Registry) (r : DlnaRenderer)
    (tracks : List Track) (old : QueueSession) (ok : Bool)
    (hold : lookupKey reg r.udn = some old) :
    lookupKey (play_tracks reg r tracks ok).1 r.udn
      = some (play_tracks reg r tracks ok).2.1 ∧
    countKey (play_tracks reg r tracks ok).1 r.udn = 1 ∧
    (play_tracks reg r tracks ok).2.2 =
      (QueueSession.stop old).2 ++
        (QueueSession.start (QueueSession.init r tracks) ok).2 ∧
    (play_tracks reg r tracks ok).2.1
      = (QueueSession.start (QueueSession.init r tracks) ok).1 := by
  unfold play_tracks
  rw [hold]
  dsimp only
  exact ⟨lookupKey_insertKey _ _ _, countKey_insertKey _ _ _, rfl, rfl⟩

/-- Witness for C3: a registry holding one session for uuid:tv, replaced
by a fresh two-track session. -/
theorem C3_replaces_session_witness :
    lookupKey (play_tracks
        [("uuid:tv",
          { renderer := sampleTv, tracks := [trackA], current_index := 0,
            dmr := true, preloaded_index := none })]
        sampleTv [trackA, trackB] true).1 "uuid:tv"
      = some (play_tracks
        [("uuid:tv",
          { renderer := sampleTv, tracks := [trackA], current_index := 0,
            dmr := true, preloaded_index := none })]
        sampleTv [trackA, trackB] true).2.1 ∧
    countKey (play_tracks
        [("uuid:tv",
          { renderer := sampleTv, tracks := [trackA], current_index := 0,
            dmr := true, preloaded_index := none })]
        sampleTv [trackA, trackB] true).1 "uuid:tv" = 1 := by
  have h := C3_replaces_session
    [("uuid:tv",
      { renderer := sampleTv, tracks := [trackA], current_index := 0,
        dmr := true, preloaded_index := none })]
    sampleTv [trackA, trackB]
    { renderer := sampleTv, tracks := [trackA], current_index := 0,
      dmr := true, preloaded_index := none } true (by decide)
  exact ⟨h.1, h.2.1⟩

/-- The construction loop never returns a track list on a non-empty
input: the first item either fails the url check (rejected with its
index) or reaches the Track constructor, which raises on the media_type
keyword. -/
theorem parseItems_cons (it : JItem) (rest : List JItem) (i : Nat) :
    parseItems (it :: rest) i =
      (if jitemHasUrl it = false then TrackParse.missingUrl i
       else TrackParse.typeError) := by
  unfold parseItems
  by_cases h : jitemHasUrl it = false
  · rw [if_pos h, if_pos h]
  · rw [if_neg h, if_neg h, if_pos (by decide : trackCtorRaises = true)]

/-- Counterexample to C4 as stated: with a stale cache, a request whose
tracks argument is invalid JSON still performs a multicast search before
being rejected (renderer resolution precedes validation); and when the
item missing its url is preceded by a well-formed item, the operation
raises an unhandled TypeError instead of a rejection naming index 1. -/
theorem C4_counterexample :
    (server_play_tracks { cache := [], cacheTime := 0 } 1000 [sampleTv]
        "Samsung TV" TracksInput.invalidJson [] true).result
      = PlayResult.errInvalidJson ∧
    (server_play_tracks { cache := [], cacheTime := 0 } 1000 [sampleTv]
        "Samsung TV" TracksInput.invalidJson [] true).searches = 1 ∧
    (server_play_tracks { cache := [], cacheTime := 0 } 1000 [sampleTv]
        "Samsung TV" (TracksInput.list [sampleGoodItem, sampleBadItem])
        [] true).result = PlayResult.unhandledTypeError := by
  decide

/-- C4 amended: every malformed track-list input is rejected (or, when a
well-formed item precedes the offending one, fails on the Track
constructor) without creating a session and without issuing any device
command; renderer resolution, which may perform a multicast search,
happens before this validation; when the renderer resolves and the very
first item fails the url check, the rejection names index 0. -/
theorem C4_malformed_rejected (st : DiscoveryState) (now : Nat)
    (network : List DlnaRenderer) (name : String) (t : TracksInput)
    (reg : Registry) (ok : Bool) (hm : malformedTracksB t = true) :
    (server_play_tracks st now network name t reg ok).result
      ≠ PlayResult.success ∧
    (server_play_tracks st now network name t reg ok).deviceCmds = [] ∧
    (server_play_tracks st now network name t reg ok).registry = reg ∧
    (∀ it rest r, t = TracksInput.list (it :: rest) →
      jitemHasUrl it = false →
      find_renderer_in (discover_renderers st false now network).2.1 name
        = some r →
      (server_play_tracks st now network name t reg ok).result
        = PlayResult.errMissingUrl 0) := by
  unfold server_play_tracks find_renderer
  dsimp only
  cases hfr : find_renderer_in (discover_renderers st false now network).2.1
      name with
  | none =>
    dsimp only
    refine ⟨by simp, rfl, rfl, ?_⟩
    intro it rest r heq hurl hsome
    cases hsome
  | some r0 =>
    cases t with
    | invalidJson =>
      dsimp only
      refine ⟨by simp, rfl, rfl, ?_⟩
      intro it rest r heq hurl hsome
      cases heq
    | notAList =>
      dsimp only
      refine ⟨by simp, rfl, rfl, ?_⟩
      intro it rest r heq hurl hsome
      cases heq
    | list items =>
      cases items with
      | nil =>
        dsimp only
        refine ⟨by simp, rfl, rfl, ?_⟩
        intro it rest r heq hurl hsome
        cases heq
      | cons it rest =>
        dsimp only
        rw [parseItems_cons]
        by_cases hurl : jitemHasUrl it = false
        · rw [if_pos hurl]
          dsimp only
          exact ⟨by simp, rfl, rfl, fun _ _ _ _ _ _ => rfl⟩
        · rw [if_neg hurl]
          dsimp only
          refine ⟨by simp, rfl, rfl, ?_⟩
          intro it2 rest2 r heq hurl2 hsome
          cases heq
          exact absurd hurl2 hurl

/-- Witness for C4 amended: a one-item list missing its url, against a
resolvable renderer, is rejected naming index 0, with no device command
and an unchanged registry. -/
theorem C4_malformed_rejected_witness :
    (server_play_tracks { cache := [], cacheTime := 0 } 1000 [sampleTv]
        "Samsung TV" (TracksInput.list [sampleBadItem]) [] true).result
      = PlayResult.errMissingUrl 0 ∧
    (server_play_tracks { cache := [], cacheTime := 0 } 1000 [sampleTv]
        "Samsung TV" (TracksInput.list [sampleBadItem]) [] true).deviceCmds
      = [] := by
  have h := C4_malformed_rejected { cache := [], cacheTime := 0 } 1000
    [sampleTv] "Samsung TV" (TracksInput.list [sampleBadItem]) [] true
    (by decide)
  exact ⟨h.2.2.2 sampleBadItem [] sampleTv rfl (by decide) (by decide), h.2.1⟩

/-- C5: the code contradicts the no-unhandled-fault requirement: for a
resolvable renderer and a well-formed non-empty track list, the Track
construction raises a TypeError (the server passes a media_type keyword
the Track dataclass does not declare) outside the try block, so the tool
raises instead of returning a result. -/
theorem C5_track_construction_raises :
    trackCtorRaises = true ∧
    (server_play_tracks { cache := [], cacheTime := 0 } 1000 [sampleTv]
        "Samsung TV" (TracksInput.list [sampleGoodItem]) [] true).result
      = PlayResult.unhandledTypeError := by
  decide

end RenfieldDlna
